import Mathlib

/-!
# VirtualDrive.cpp: the probes and their driver

A state-passing embedding of `src/VirtualDrive.cpp`.  Every function of the
source becomes a function `World → World`; the Win32 calls it makes are
functions on the same `World`, which holds the filesystem entries, the value
of `GetLastError`, a schedule of injected OS failures and the log of
everything that happened (function entries, Win32 calls with their results,
lines written to the console).
-/

namespace VirtualDrive

/-! ## Win32 constants used by the source -/

/-- Value `GetFileAttributesW` returns on failure, `((DWORD)-1)` in `fileapi.h`. -/
def INVALID_FILE_ATTRIBUTES : Nat := 0xFFFFFFFF

/-- Value `((ATOM)0)` of `winbase.h`, compared with the last re-read at line 83. -/
def INVALID_ATOM : Nat := 0

/-- Attribute bit `0x2` of `winnt.h`. -/
def FILE_ATTRIBUTE_HIDDEN : Nat := 0x2

/-- System error code 2 of `winerror.h`. -/
def ERROR_FILE_NOT_FOUND : Nat := 2

/-- System error code 5 of `winerror.h`. -/
def ERROR_ACCESS_DENIED : Nat := 5

/-- System error code 80 of `winerror.h`. -/
def ERROR_FILE_EXISTS : Nat := 80

/-- System error code 87 of `winerror.h`. -/
def ERROR_INVALID_PARAMETER : Nat := 87

/-- System error code 122 of `winerror.h`. -/
def ERROR_INSUFFICIENT_BUFFER : Nat := 122

/-- System error code 1332 of `winerror.h`. -/
def ERROR_NONE_MAPPED : Nat := 1332

/-! ## Data model -/

/-- One filesystem entry: its bytes, its attribute bitmask (a DWORD, held as a
`Nat`: the source only compares it and combines it with `|` and `&`) and the
owner recorded in its security descriptor (`none`: no owner recorded). -/
structure Entry where
  content : String
  attrs : Nat
  owner : Option Nat
deriving DecidableEq

/-- In-memory security descriptor as far as the source looks at it: the owner
SID and the owner-defaulted flag. -/
structure Descriptor where
  owner : Option Nat
  ownerDefaulted : Bool
deriving DecidableEq

/-- Functions of the source; an `enter` event is logged when one is called. -/
inductive Fn
  | test (testName : String)
  | testVolumePathName
  | testGetFileSecurity
  | testSetFileSecurity
  | testGetSetFileAttributes
  | testDeleteRestoreFile
  | testDeleteRestoreFolder
deriving DecidableEq

/-- Win32 calls made by the source, with the arguments that matter. -/
inductive Call
  | GetVolumePathNameW (fileName : String)
  | GetFileAttributesW (fileName : String)
  | SetFileAttributesW (fileName : String) (attrs : Nat)
  | GetFileSecurityW (fileName : String) (nLength : Nat)
  | SetSecurityDescriptorOwner (owner : Option Nat) (ownerDefaulted : Bool)
  | SetFileSecurityW (fileName : String)
  | GetSecurityDescriptorOwner
  | LookupAccountSidW (sid : Option Nat) (nameSize domainSize : Nat)
  | CopyFileW (existingFileName newFileName : String) (failIfExists : Bool)
  | DeleteFile (fileName : String)
deriving DecidableEq

/-- Result of a Win32 call: success with the DWORD it returned (1 for a BOOL
call), or failure with the code `GetLastError` returns afterwards. -/
inductive Reply
  | ok (value : Nat)
  | failed (code : Nat)
deriving DecidableEq

/-- What the program sees of a BOOL call. -/
def Reply.toBool : Reply → Bool
  | Reply.ok _ => true
  | Reply.failed _ => false

/-- Lines the source writes to `cerr`, `wcerr` and `cout`. -/
inductive Msg
  /-- Line 31: "Last error code: " followed by `GetLastError()`. -/
  | lastErrorCode (code : Nat)
  /-- Line 36: the text `FormatMessageW` gives for the code. -/
  | systemMessage (code : Nat)
  /-- Line 41: "VolumePathName". -/
  | hdrVolumePathName
  /-- Line 48: "Volume: " followed by the volume. -/
  | volume (name : String)
  /-- Lines 49, 91, 231, 272, 313: "Test succeeded". -/
  | testSucceeded
  /-- Line 56: "testGetSetFileAttributes". -/
  | hdrGetSetFileAttributes
  /-- Line 64: "Failed to set hidden attribute". -/
  | failedToSetHidden
  /-- Line 70: "Failed to get attribute after setting hidden attr". -/
  | failedToGetAfterSet
  /-- Line 75: "Set attribute wasn't successful. Why does the file not have the hidden attribute?". -/
  | hiddenNotObserved
  /-- Line 79: "Failed to restore attribute". -/
  | failedToRestore
  /-- Line 84: "Failed to get attribute after restoring original attr". -/
  | failedToGetAfterRestore
  /-- Line 88: "Attribute is not the same as original after restoring". -/
  | restoreMismatch
  /-- Line 95: "SetFileSecurity". -/
  | hdrSetFileSecurity
  /-- Lines 107, 171: "GetFileSecurity failed". -/
  | getFileSecurityFailed
  /-- Line 113: "Why did GetFileSecurityW succeed?". -/
  | whyDidGetFileSecuritySucceed
  /-- Line 117: `lengthNeeded`, written to `cout`. -/
  | lengthNeeded (n : Nat)
  /-- Lines 128, 189: "GetFileSecurityW failed". -/
  | getFileSecurityWFailed
  /-- Line 140: "Error manipulating returned security descriptor". -/
  | errorManipulatingDescriptor
  /-- Line 152: "Error setting security descriptor". -/
  | errorSettingDescriptor
  /-- Line 158: "GetFileSecurity". -/
  | hdrGetFileSecurity
  /-- Line 176: "GetFileSecurityW should have failed because we are only getting the buffer size". -/
  | shouldHaveFailed
  /-- Line 200: "GetSecurityDescriptorOwner failed". -/
  | getOwnerFailed
  /-- Line 229: "Owner name: " followed by the name buffer (`none`: never filled). -/
  | ownerName (name : Option String)
  /-- Line 230: "Domain name: " followed by the domain buffer (`none`: never filled). -/
  | domainName (name : Option String)
  /-- Lines 235, 276: "testDeleteRestore". -/
  | hdrDeleteRestore
  /-- Lines 244, 285: "Error backing up file before deleting". -/
  | errorBackingUp
  /-- Lines 251, 292: "Error deleting original file". -/
  | errorDeletingOriginal
  /-- Lines 262, 303: "Error restoring the deleted file". -/
  | errorRestoring
  /-- Lines 269, 310: "Error deleting backed up file". -/
  | errorDeletingBackup
  /-- Lines 317, 318, 320: the blank lines and the row of plus signs. -/
  | banner
  /-- Line 319: "Testing: " followed by the test name. -/
  | testing (testName : String)
  /-- Lines 323, 326, 329, 332, 335: "------------------". -/
  | separator
deriving DecidableEq

/-- Entries of the log. -/
inductive Event
  | enter (f : Fn) (fileName : String)
  | call (c : Call) (r : Reply)
  | out (m : Msg)
deriving DecidableEq

/-- The machine the program runs on.

* `files`: the entry stored at each path (`none`: nothing there);
* `volumeOf`: the volume mount point of a path;
* `recorded p v`: the attribute set the volume keeps when `v` is written at
  `p` (the identity on a volume that keeps every bit);
* `descriptorLength p`: bytes needed for the owner descriptor of `p`;
* `accounts sid`: the (name, domain) of an account;
* `creator`: the owner given to a newly created entry;
* `faults k`: `some code` when the OS makes the `k`-th Win32 call fail with
  `code` whatever its arguments, `none` when it lets the call run;
* `calls`: number of Win32 calls made so far;
* `lastError`: what `GetLastError` returns;
* `trace`: the log, oldest event first. -/
structure World where
  files : String → Option Entry
  volumeOf : String → String
  recorded : String → Nat → Nat
  descriptorLength : String → Nat
  accounts : Nat → Option (String × String)
  creator : Option Nat
  faults : Nat → Option Nat
  calls : Nat
  lastError : Nat
  trace : List Event

/-- The fault the OS injects into the next Win32 call. -/
def World.fault (w : World) : Option Nat := w.faults w.calls

/-- Writing a line to the console. -/
def emit (m : Msg) (w : World) : World :=
  { w with trace := w.trace ++ [Event.out m] }

/-- Logging the entry into a function of the source. -/
def enter (f : Fn) (fileName : String) (w : World) : World :=
  { w with trace := w.trace ++ [Event.enter f fileName] }

/-- Bookkeeping common to every Win32 call: count it, set the last error when
it failed, log it. -/
def World.sys (w : World) (c : Call) (r : Reply) : World :=
  { w with
    calls := w.calls + 1
    lastError := match r with
      | Reply.ok _ => w.lastError
      | Reply.failed code => code
    trace := w.trace ++ [Event.call c r] }

/-- Replacing the entry at one path. -/
def World.store (w : World) (p : String) (e : Option Entry) : World :=
  { w with files := fun q => if q = p then e else w.files q }

/-! ## The Win32 calls

The operating system is not part of the repository: the functions below are
the environment the source runs in.  A call that succeeds does what the Win32
documentation of that call says (`CopyFileW` with `bFailIfExists` false
replaces an existing file and copies content and attributes but not security
information; `GetFileSecurityW` with a buffer that is too short fails with
`ERROR_INSUFFICIENT_BUFFER` and reports the length needed; and so on).  Besides
the failures that follow from the state (a path that holds nothing), any call
can be made to fail with any code through `World.faults`, so a statement proved
for every `World` holds for every combination of OS failures.  Paths are the
keys of `World.files`; two paths name the same entry only when they are equal. -/

/-- `GetVolumePathNameW`: the mount point of the path unless the OS refuses. -/
def GetVolumePathNameW (fileName : String) (w : World) : Option String × World :=
  match w.fault with
  | some code => (none, w.sys (Call.GetVolumePathNameW fileName) (Reply.failed code))
  | none => (some (w.volumeOf fileName), w.sys (Call.GetVolumePathNameW fileName) (Reply.ok 1))

/-- Reply of `GetFileAttributesW`. -/
def getFileAttributesReply (fileName : String) (w : World) : Reply :=
  match w.fault with
  | some code => Reply.failed code
  | none =>
    match w.files fileName with
    | none => Reply.failed ERROR_FILE_NOT_FOUND
    | some e => Reply.ok e.attrs

/-- `GetFileAttributesW`: the stored attribute set, or `INVALID_FILE_ATTRIBUTES`
on failure. -/
def GetFileAttributesW (fileName : String) (w : World) : Nat × World :=
  let r := getFileAttributesReply fileName w
  (match r with
    | Reply.ok v => v
    | Reply.failed _ => INVALID_FILE_ATTRIBUTES,
   w.sys (Call.GetFileAttributesW fileName) r)

/-- Reply of `SetFileAttributesW`. -/
def setFileAttributesReply (fileName : String) (w : World) : Reply :=
  match w.fault with
  | some code => Reply.failed code
  | none =>
    match w.files fileName with
    | none => Reply.failed ERROR_FILE_NOT_FOUND
    | some _ => Reply.ok 1

/-- `SetFileAttributesW`: on success the entry keeps what the volume records
for the value written; on failure nothing changes. -/
def SetFileAttributesW (fileName : String) (attrs : Nat) (w : World) : Bool × World :=
  let r := setFileAttributesReply fileName w
  let w1 := w.sys (Call.SetFileAttributesW fileName attrs) r
  match r, w.files fileName with
  | Reply.ok _, some e =>
    (true, w1.store fileName (some { e with attrs := w.recorded fileName attrs }))
  | _, _ => (false, w1)

/-- Reply of `CopyFileW`. -/
def copyFileReply (existingFileName newFileName : String) (failIfExists : Bool)
    (w : World) : Reply :=
  match w.fault with
  | some code => Reply.failed code
  | none =>
    match w.files existingFileName with
    | none => Reply.failed ERROR_FILE_NOT_FOUND
    | some _ =>
      if failIfExists && (w.files newFileName).isSome then Reply.failed ERROR_FILE_EXISTS
      else Reply.ok 1

/-- Owner of the entry a copy leaves at `newFileName`: security information is
not copied, an entry that is overwritten keeps its owner and a new one gets
the creator. -/
def copyOwner (newFileName : String) (w : World) : Option Nat :=
  match w.files newFileName with
  | some d => d.owner
  | none => w.creator

/-- `CopyFileW`: on success the new path holds the content and attributes of
the existing one, replacing what was there when `failIfExists` is false; with
`failIfExists` true an occupied new path makes the call fail. -/
def CopyFileW (existingFileName newFileName : String) (failIfExists : Bool)
    (w : World) : Bool × World :=
  let r := copyFileReply existingFileName newFileName failIfExists w
  let w1 := w.sys (Call.CopyFileW existingFileName newFileName failIfExists) r
  match r, w.files existingFileName with
  | Reply.ok _, some e =>
    (true, w1.store newFileName (some { e with owner := copyOwner newFileName w }))
  | _, _ => (false, w1)

/-- Reply of `DeleteFile`. -/
def deleteFileReply (fileName : String) (w : World) : Reply :=
  match w.fault with
  | some code => Reply.failed code
  | none =>
    match w.files fileName with
    | none => Reply.failed ERROR_FILE_NOT_FOUND
    | some _ => Reply.ok 1

/-- `DeleteFile`: on success the entry is gone; on failure nothing changes. -/
def DeleteFile (fileName : String) (w : World) : Bool × World :=
  let r := deleteFileReply fileName w
  let w1 := w.sys (Call.DeleteFile fileName) r
  match r with
  | Reply.ok _ => (true, w1.store fileName none)
  | Reply.failed _ => (false, w1)

/-- Reply of `GetFileSecurityW` for a buffer of `nLength` bytes: a buffer
shorter than the descriptor makes the call fail with
`ERROR_INSUFFICIENT_BUFFER`. -/
def getFileSecurityReply (fileName : String) (nLength : Nat) (w : World) : Reply :=
  match w.fault with
  | some code => Reply.failed code
  | none =>
    match w.files fileName with
    | none => Reply.failed ERROR_FILE_NOT_FOUND
    | some _ =>
      if nLength < w.descriptorLength fileName then Reply.failed ERROR_INSUFFICIENT_BUFFER
      else Reply.ok 1

/-- Result of `GetFileSecurityW`: the BOOL, the value left in `lengthNeeded`
and the content of the buffer. -/
structure SecurityQuery where
  ret : Bool
  lengthNeeded : Nat
  descriptor : Descriptor
  world : World

/-- `GetFileSecurityW` for `OWNER_SECURITY_INFORMATION`: `lengthNeeded` is
written when the entry was reached, the buffer only on success. -/
def GetFileSecurityW (fileName : String) (descriptor : Descriptor) (nLength : Nat)
    (lengthNeeded : Nat) (w : World) : SecurityQuery :=
  let r := getFileSecurityReply fileName nLength w
  let w1 := w.sys (Call.GetFileSecurityW fileName nLength) r
  match w.fault, w.files fileName with
  | none, some e =>
    { ret := r.toBool
      lengthNeeded := w.descriptorLength fileName
      descriptor := if r.toBool then ⟨e.owner, false⟩ else descriptor
      world := w1 }
  | _, _ => { ret := false, lengthNeeded := lengthNeeded, descriptor := descriptor, world := w1 }

/-- Reply of a call that touches no entry: it fails only when the OS says so. -/
def plainReply (w : World) : Reply :=
  match w.fault with
  | some code => Reply.failed code
  | none => Reply.ok 1

/-- `SetSecurityDescriptorOwner`: on success the in-memory descriptor gets the
given owner and owner-defaulted flag. -/
def SetSecurityDescriptorOwner (descriptor : Descriptor) (owner : Option Nat)
    (ownerDefaulted : Bool) (w : World) : Bool × Descriptor × World :=
  let r := plainReply w
  let w1 := w.sys (Call.SetSecurityDescriptorOwner owner ownerDefaulted) r
  (r.toBool, if r.toBool then ⟨owner, ownerDefaulted⟩ else descriptor, w1)

/-- Reply of `SetFileSecurityW`. -/
def setFileSecurityReply (fileName : String) (w : World) : Reply :=
  match w.fault with
  | some code => Reply.failed code
  | none =>
    match w.files fileName with
    | none => Reply.failed ERROR_FILE_NOT_FOUND
    | some _ => Reply.ok 1

/-- `SetFileSecurityW` for `OWNER_SECURITY_INFORMATION`: on success the entry
records the owner of the descriptor; on failure nothing changes. -/
def SetFileSecurityW (fileName : String) (descriptor : Descriptor) (w : World) :
    Bool × World :=
  let r := setFileSecurityReply fileName w
  let w1 := w.sys (Call.SetFileSecurityW fileName) r
  match r, w.files fileName with
  | Reply.ok _, some e => (true, w1.store fileName (some { e with owner := descriptor.owner }))
  | _, _ => (false, w1)

/-- `GetSecurityDescriptorOwner`: on success the owner SID of the descriptor. -/
def GetSecurityDescriptorOwner (descriptor : Descriptor) (w : World) :
    Bool × Option Nat × World :=
  let r := plainReply w
  (r.toBool, if r.toBool then descriptor.owner else none, w.sys Call.GetSecurityDescriptorOwner r)

/-- Result of `LookupAccountSidW`: the BOOL, the two sizes and the two buffers
(`none`: never filled). -/
structure AccountLookup where
  ret : Bool
  nameSize : Nat
  domainSize : Nat
  name : Option String
  domain : Option String
  world : World

/-- Reply of `LookupAccountSidW` for buffers of the given sizes (in characters,
terminator included). -/
def lookupAccountSidReply (sid : Option Nat) (nameSize domainSize : Nat) (w : World) : Reply :=
  match w.fault with
  | some code => Reply.failed code
  | none =>
    match sid with
    | none => Reply.failed ERROR_INVALID_PARAMETER
    | some s =>
      match w.accounts s with
      | none => Reply.failed ERROR_NONE_MAPPED
      | some (n, d) =>
        if nameSize < n.length + 1 ∨ domainSize < d.length + 1 then
          Reply.failed ERROR_INSUFFICIENT_BUFFER
        else Reply.ok 1

/-- `LookupAccountSidW`: with buffers too small the sizes needed are written
back; on success the buffers are filled; otherwise nothing is written. -/
def LookupAccountSidW (sid : Option Nat) (name : Option String) (nameSize : Nat)
    (domain : Option String) (domainSize : Nat) (w : World) : AccountLookup :=
  let r := lookupAccountSidReply sid nameSize domainSize w
  let w1 := w.sys (Call.LookupAccountSidW sid nameSize domainSize) r
  match w.fault, sid.bind w.accounts with
  | none, some (n, d) =>
    if r.toBool then
      { ret := true, nameSize := n.length, domainSize := d.length,
        name := some n, domain := some d, world := w1 }
    else
      { ret := false, nameSize := n.length + 1, domainSize := d.length + 1,
        name := name, domain := domain, world := w1 }
  | _, _ =>
    { ret := false, nameSize := nameSize, domainSize := domainSize,
      name := name, domain := domain, world := w1 }

/-! ## The source -/

/-- Lines 30-37. -/
def printErrorMessage (w : World) : World :=
  emit (Msg.systemMessage w.lastError) (emit (Msg.lastErrorCode w.lastError) w)

/-- Lines 55-92. -/
def testGetSetFileAttributes (fileName : String) (w0 : World) : World :=
  let w := emit Msg.hdrGetSetFileAttributes (enter Fn.testGetSetFileAttributes fileName w0)
  let r1 := GetFileAttributesW fileName w
  let attr := r1.1
  if attr = INVALID_FILE_ATTRIBUTES then
    printErrorMessage r1.2
  else
    let r2 := SetFileAttributesW fileName (attr ||| FILE_ATTRIBUTE_HIDDEN) r1.2
    if !r2.1 then
      printErrorMessage (emit Msg.failedToSetHidden r2.2)
    else
      let r3 := GetFileAttributesW fileName r2.2
      if r3.1 = INVALID_FILE_ATTRIBUTES then
        printErrorMessage (emit Msg.failedToGetAfterSet r3.2)
      else if r3.1 &&& FILE_ATTRIBUTE_HIDDEN = 0 then
        emit Msg.hiddenNotObserved r3.2
      else
        let r4 := SetFileAttributesW fileName attr r3.2
        if !r4.1 then
          emit Msg.failedToRestore r4.2
        else
          let r5 := GetFileAttributesW fileName r4.2
          if r5.1 = INVALID_ATOM then
            emit Msg.failedToGetAfterRestore r5.2
          else if r5.1 ≠ attr then
            emit Msg.restoreMismatch r5.2
          else
            emit Msg.testSucceeded r5.2

/-- Line 236 (and 277): the shared backup location. -/
def backup : String := "C:\\temp\\testBackup"

/-- Lines 234-273. -/
def testDeleteRestoreFile (fileName : String) (w0 : World) : World :=
  let w := emit Msg.hdrDeleteRestore (enter Fn.testDeleteRestoreFile fileName w0)
  let r1 := CopyFileW fileName backup false w
  if !r1.1 then
    emit Msg.errorBackingUp (printErrorMessage r1.2)
  else
    let r2 := DeleteFile fileName r1.2
    if !r2.1 then
      emit Msg.errorDeletingOriginal (printErrorMessage r2.2)
    else
      let r3 := CopyFileW backup fileName false r2.2
      if !r3.1 then
        emit Msg.errorRestoring (printErrorMessage r3.2)
      else
        let r4 := DeleteFile backup r3.2
        if !r4.1 then
          emit Msg.errorDeletingBackup (printErrorMessage r4.2)
        else
          emit Msg.testSucceeded r4.2

/-- Lines 40-51. -/
def testVolumePathName (fileName : String) (w0 : World) : World :=
  let w := emit Msg.hdrVolumePathName (enter Fn.testVolumePathName fileName w0)
  let r := GetVolumePathNameW fileName w
  match r.1 with
  | none => printErrorMessage r.2
  | some volume => emit Msg.testSucceeded (emit (Msg.volume volume) r.2)

/-- Content of a buffer that `malloc` returned and nothing has written yet. -/
def unfilled : Descriptor := ⟨none, false⟩

/-- Lines 94-154. -/
def testSetFileSecurity (fileName : String) (w0 : World) : World :=
  let w := emit Msg.hdrSetFileSecurity (enter Fn.testSetFileSecurity fileName w0)
  let q1 := GetFileSecurityW fileName unfilled 0 0 w
  if !q1.ret ∧ q1.world.lastError ≠ ERROR_INSUFFICIENT_BUFFER then
    printErrorMessage (emit Msg.getFileSecurityFailed q1.world)
  else if q1.ret then
    emit Msg.whyDidGetFileSecuritySucceed q1.world
  else
    let w1 := emit (Msg.lengthNeeded q1.lengthNeeded) q1.world
    let q2 := GetFileSecurityW fileName unfilled q1.lengthNeeded q1.lengthNeeded w1
    if !q2.ret then
      emit Msg.getFileSecurityWFailed (printErrorMessage q2.world)
    else
      let r3 := SetSecurityDescriptorOwner q2.descriptor none true q2.world
      if !r3.1 then
        emit Msg.errorManipulatingDescriptor (printErrorMessage r3.2.2)
      else
        let r4 := SetFileSecurityW fileName r3.2.1 r3.2.2
        if !r4.1 then
          emit Msg.errorSettingDescriptor (printErrorMessage r4.2)
        else
          r4.2

/-- Lines 157-232. -/
def testGetFileSecurity (fileName : String) (w0 : World) : World :=
  let w := emit Msg.hdrGetFileSecurity (enter Fn.testGetFileSecurity fileName w0)
  let q1 := GetFileSecurityW fileName unfilled 0 0 w
  if !q1.ret ∧ q1.world.lastError ≠ ERROR_INSUFFICIENT_BUFFER then
    emit Msg.getFileSecurityFailed (printErrorMessage q1.world)
  else if q1.ret then
    emit Msg.shouldHaveFailed q1.world
  else
    let q2 := GetFileSecurityW fileName unfilled q1.lengthNeeded q1.lengthNeeded q1.world
    if !q2.ret then
      printErrorMessage (emit Msg.getFileSecurityWFailed q2.world)
    else
      let r3 := GetSecurityDescriptorOwner q2.descriptor q2.world
      if !r3.1 then
        emit Msg.getOwnerFailed (printErrorMessage r3.2.2)
      else
        let sid := r3.2.1
        let l1 := LookupAccountSidW sid none 0 none 0 r3.2.2
        let l2 := LookupAccountSidW sid none l1.nameSize none l1.domainSize l1.world
        emit Msg.testSucceeded
          (emit (Msg.domainName l2.domain) (emit (Msg.ownerName l2.name) l2.world))

/-- Lines 275-314. -/
def testDeleteRestoreFolder (fileName : String) (w0 : World) : World :=
  let w := emit Msg.hdrDeleteRestore (enter Fn.testDeleteRestoreFolder fileName w0)
  let r1 := CopyFileW fileName backup false w
  if !r1.1 then
    emit Msg.errorBackingUp (printErrorMessage r1.2)
  else
    let r2 := DeleteFile fileName r1.2
    if !r2.1 then
      emit Msg.errorDeletingOriginal (printErrorMessage r2.2)
    else
      let r3 := CopyFileW backup fileName false r2.2
      if !r3.1 then
        emit Msg.errorRestoring (printErrorMessage r3.2)
      else
        let r4 := DeleteFile backup r3.2
        if !r4.1 then
          emit Msg.errorDeletingBackup (printErrorMessage r4.2)
        else
          emit Msg.testSucceeded r4.2

/-- Lines 316-338. -/
def test (testName : String) (filename : String) (w0 : World) : World :=
  let w := enter (Fn.test testName) filename w0
  let w := emit Msg.banner (emit (Msg.testing testName) (emit Msg.banner (emit Msg.banner w)))
  let w := emit Msg.separator (testVolumePathName filename w)
  let w := emit Msg.separator (testGetFileSecurity filename w)
  let w := emit Msg.separator (testSetFileSecurity filename w)
  let w := emit Msg.separator (testGetFileSecurity filename w)
  let w := emit Msg.separator (testGetSetFileAttributes filename w)
  testDeleteRestoreFile filename w

/-- Events logged between two worlds. -/
def newEvents (before after : World) : List Event :=
  after.trace.drop before.trace.length

/-- Console lines among some events. -/
def outs : List Event → List Msg
  | [] => []
  | Event.out m :: es => m :: outs es
  | _ :: es => outs es

/-- Win32 calls (with their results) among some events. -/
def syscalls : List Event → List (Call × Reply)
  | [] => []
  | Event.call c r :: es => (c, r) :: syscalls es
  | _ :: es => syscalls es

/-- Function entries among some events. -/
def enters : List Event → List (Fn × String)
  | [] => []
  | Event.enter f p :: es => (f, p) :: enters es
  | _ :: es => enters es

/-- A machine for examples: one file `f` with attributes `0x20`, a backup
location holding something else, no injected failure. -/
def demo (faults : Nat → Option Nat) : World where
  files := fun q =>
    if q = "f" then some ⟨"hello", 0x20, some 7⟩
    else if q = backup then some ⟨"old", 0x80, some 7⟩
    else none
  volumeOf := fun _ => "C:\\"
  recorded := fun _ v => v
  descriptorLength := fun _ => 20
  accounts := fun sid => if sid = 7 then some ("alice", "WORKGROUP") else none
  creator := some 7
  faults := faults
  calls := 0
  lastError := 0
  trace := []






/-! ## Auxiliary definitions for the statements and proofs -/

/-- The same machine with `t` put in front of its log. -/
def relog (t : List Event) (w : World) : World :=
  { w with trace := t ++ w.trace }

/-- The same machine with an empty log. -/
def unlogged (w : World) : World :=
  { w with trace := [] }

/-- The four steps shared by lines 237-272 and lines 278-313. -/
def deleteRestoreSteps (fileName : String) (w : World) : World :=
  let r1 := CopyFileW fileName backup false w
  if !r1.1 then
    emit Msg.errorBackingUp (printErrorMessage r1.2)
  else
    let r2 := DeleteFile fileName r1.2
    if !r2.1 then
      emit Msg.errorDeletingOriginal (printErrorMessage r2.2)
    else
      let r3 := CopyFileW backup fileName false r2.2
      if !r3.1 then
        emit Msg.errorRestoring (printErrorMessage r3.2)
      else
        let r4 := DeleteFile backup r3.2
        if !r4.1 then
          emit Msg.errorDeletingBackup (printErrorMessage r4.2)
        else
          emit Msg.testSucceeded r4.2

/-- A machine whose file `f` has the empty attribute set. -/
def demoZero : World :=
  { demo (fun _ => none) with
    files := fun q => if q = "f" then some ⟨"hello", 0, some 7⟩ else none }

@[simp] theorem emit_trace (m : Msg) (w : World) :
    (emit m w).trace = w.trace ++ [Event.out m] := rfl

@[simp] theorem emit_files (m : Msg) (w : World) : (emit m w).files = w.files := rfl

@[simp] theorem emit_lastError (m : Msg) (w : World) : (emit m w).lastError = w.lastError := rfl

@[simp] theorem enter_trace (f : Fn) (p : String) (w : World) :
    (enter f p w).trace = w.trace ++ [Event.enter f p] := rfl

@[simp] theorem enter_files (f : Fn) (p : String) (w : World) : (enter f p w).files = w.files := rfl

@[simp] theorem enter_lastError (f : Fn) (p : String) (w : World) :
    (enter f p w).lastError = w.lastError := rfl

@[simp] theorem printErrorMessage_trace (w : World) :
    (printErrorMessage w).trace
      = w.trace ++ [Event.out (Msg.lastErrorCode w.lastError),
                    Event.out (Msg.systemMessage w.lastError)] := by
  simp [printErrorMessage]

@[simp] theorem printErrorMessage_files (w : World) : (printErrorMessage w).files = w.files := rfl

@[simp] theorem printErrorMessage_lastError (w : World) :
    (printErrorMessage w).lastError = w.lastError := rfl

@[simp] theorem emit_fault (m : Msg) (w : World) : (emit m w).fault = w.fault := rfl

@[simp] theorem enter_fault (f : Fn) (p : String) (w : World) : (enter f p w).fault = w.fault := rfl

@[simp] theorem emit_recorded (m : Msg) (w : World) : (emit m w).recorded = w.recorded := rfl

@[simp] theorem enter_recorded (f : Fn) (p : String) (w : World) :
    (enter f p w).recorded = w.recorded := rfl

@[simp] theorem printErrorMessage_recorded (w : World) :
    (printErrorMessage w).recorded = w.recorded := rfl

@[simp] theorem copyOwner_emit (q : String) (m : Msg) (w : World) :
    copyOwner q (emit m w) = copyOwner q w := rfl

@[simp] theorem copyOwner_enter (q : String) (f : Fn) (p : String) (w : World) :
    copyOwner q (enter f p w) = copyOwner q w := rfl

@[simp] theorem newEvents_append (w w1 : World) (l : List Event) (h : w1.trace = w.trace ++ l) :
    newEvents w w1 = l := by
  simp [newEvents, h]

@[simp] theorem outs_out (m : Msg) (es : List Event) : outs (Event.out m :: es) = m :: outs es := rfl

@[simp] theorem outs_call (c : Call) (r : Reply) (es : List Event) :
    outs (Event.call c r :: es) = outs es := rfl

@[simp] theorem outs_enter (f : Fn) (p : String) (es : List Event) :
    outs (Event.enter f p :: es) = outs es := rfl

@[simp] theorem outs_nil : outs [] = [] := rfl

@[simp] theorem syscalls_out (m : Msg) (es : List Event) :
    syscalls (Event.out m :: es) = syscalls es := rfl

@[simp] theorem syscalls_call (c : Call) (r : Reply) (es : List Event) :
    syscalls (Event.call c r :: es) = (c, r) :: syscalls es := rfl

@[simp] theorem syscalls_enter (f : Fn) (p : String) (es : List Event) :
    syscalls (Event.enter f p :: es) = syscalls es := rfl

@[simp] theorem syscalls_nil : syscalls [] = [] := rfl

@[simp] theorem enters_out (m : Msg) (es : List Event) :
    enters (Event.out m :: es) = enters es := rfl

@[simp] theorem enters_call (c : Call) (r : Reply) (es : List Event) :
    enters (Event.call c r :: es) = enters es := rfl

@[simp] theorem enters_enter (f : Fn) (p : String) (es : List Event) :
    enters (Event.enter f p :: es) = (f, p) :: enters es := rfl

@[simp] theorem enters_nil : enters [] = [] := rfl

/-- The two ways `CopyFileW` can end. -/
theorem CopyFileW_cases (src dst : String) (b : Bool) (w : World) :
    (∃ e, (CopyFileW src dst b w).1 = false ∧
        (CopyFileW src dst b w).2.trace
          = w.trace ++ [Event.call (Call.CopyFileW src dst b) (Reply.failed e)] ∧
        (CopyFileW src dst b w).2.lastError = e ∧
        (w.fault = some e ∨ w.files src = none ∨ b = true) ∧
        (CopyFileW src dst b w).2.files = w.files) ∨
    (∃ ent, (CopyFileW src dst b w).1 = true ∧
        (CopyFileW src dst b w).2.trace
          = w.trace ++ [Event.call (Call.CopyFileW src dst b) (Reply.ok 1)] ∧
        (CopyFileW src dst b w).2.lastError = w.lastError ∧
        w.files src = some ent ∧
        (b = true → w.files dst = none) ∧
        (CopyFileW src dst b w).2.files
          = fun q => if q = dst then some { ent with owner := copyOwner dst w } else w.files q) := by
  unfold CopyFileW copyFileReply
  cases hf : w.fault with
  | some code => exact Or.inl ⟨code, by simp [World.sys]⟩
  | none =>
    cases hs : w.files src with
    | none => exact Or.inl ⟨ERROR_FILE_NOT_FOUND, by simp [World.sys]⟩
    | some ent =>
      by_cases hb : (b && (w.files dst).isSome) = true
      · have hb1 : b = true := by cases b <;> simp_all
        subst hb1
        simp only [Bool.true_and] at hb
        exact Or.inl ⟨ERROR_FILE_EXISTS, by simp [World.sys, hb]⟩
      · refine Or.inr ⟨ent, ?_⟩
        simp only [hb]
        simp [World.sys, World.store]
        intro h
        simpa [h] using hb

/-- The two ways `DeleteFile` can end. -/
theorem DeleteFile_cases (p : String) (w : World) :
    (∃ e, (DeleteFile p w).1 = false ∧
        (DeleteFile p w).2.trace = w.trace ++ [Event.call (Call.DeleteFile p) (Reply.failed e)] ∧
        (DeleteFile p w).2.lastError = e ∧
        (DeleteFile p w).2.files = w.files) ∨
    ((DeleteFile p w).1 = true ∧
        (DeleteFile p w).2.trace = w.trace ++ [Event.call (Call.DeleteFile p) (Reply.ok 1)] ∧
        (DeleteFile p w).2.lastError = w.lastError ∧
        (w.files p).isSome = true ∧
        (DeleteFile p w).2.files = fun q => if q = p then none else w.files q) := by
  unfold DeleteFile deleteFileReply
  cases hf : w.fault with
  | some code => exact Or.inl ⟨code, by simp [World.sys]⟩
  | none =>
    cases hs : w.files p with
    | none => exact Or.inl ⟨ERROR_FILE_NOT_FOUND, by simp [World.sys]⟩
    | some ent => exact Or.inr (by simp [World.sys, World.store])

/-- Every run of `testDeleteRestoreFile`: the calls made, the lines written and
the entries left, according to the first step that fails. -/
theorem testDeleteRestoreFile_run (p : String) (w : World) :
    (∃ e, (w.fault = some e ∨ w.files p = none) ∧
        syscalls (newEvents w (testDeleteRestoreFile p w))
          = [(Call.CopyFileW p backup false, Reply.failed e)] ∧
        outs (newEvents w (testDeleteRestoreFile p w))
          = [Msg.hdrDeleteRestore, Msg.lastErrorCode e, Msg.systemMessage e,
             Msg.errorBackingUp] ∧
        (testDeleteRestoreFile p w).files = w.files) ∨
    (∃ e ent, w.files p = some ent ∧
        syscalls (newEvents w (testDeleteRestoreFile p w))
          = [(Call.CopyFileW p backup false, Reply.ok 1), (Call.DeleteFile p, Reply.failed e)] ∧
        outs (newEvents w (testDeleteRestoreFile p w))
          = [Msg.hdrDeleteRestore, Msg.lastErrorCode e, Msg.systemMessage e,
             Msg.errorDeletingOriginal] ∧
        (testDeleteRestoreFile p w).files
          = fun q => if q = backup then some { ent with owner := copyOwner backup w }
              else w.files q) ∨
    (∃ e ent, w.files p = some ent ∧
        syscalls (newEvents w (testDeleteRestoreFile p w))
          = [(Call.CopyFileW p backup false, Reply.ok 1), (Call.DeleteFile p, Reply.ok 1),
             (Call.CopyFileW backup p false, Reply.failed e)] ∧
        outs (newEvents w (testDeleteRestoreFile p w))
          = [Msg.hdrDeleteRestore, Msg.lastErrorCode e, Msg.systemMessage e,
             Msg.errorRestoring] ∧
        (testDeleteRestoreFile p w).files
          = fun q => if q = p then none
              else if q = backup then some { ent with owner := copyOwner backup w }
              else w.files q) ∨
    (∃ e ent o, w.files p = some ent ∧ p ≠ backup ∧
        syscalls (newEvents w (testDeleteRestoreFile p w))
          = [(Call.CopyFileW p backup false, Reply.ok 1), (Call.DeleteFile p, Reply.ok 1),
             (Call.CopyFileW backup p false, Reply.ok 1),
             (Call.DeleteFile backup, Reply.failed e)] ∧
        outs (newEvents w (testDeleteRestoreFile p w))
          = [Msg.hdrDeleteRestore, Msg.lastErrorCode e, Msg.systemMessage e,
             Msg.errorDeletingBackup] ∧
        (testDeleteRestoreFile p w).files
          = fun q => if q = p then some { ent with owner := o }
              else if q = backup then some { ent with owner := copyOwner backup w }
              else w.files q) ∨
    (∃ ent o, w.files p = some ent ∧ p ≠ backup ∧
        syscalls (newEvents w (testDeleteRestoreFile p w))
          = [(Call.CopyFileW p backup false, Reply.ok 1), (Call.DeleteFile p, Reply.ok 1),
             (Call.CopyFileW backup p false, Reply.ok 1),
             (Call.DeleteFile backup, Reply.ok 1)] ∧
        outs (newEvents w (testDeleteRestoreFile p w))
          = [Msg.hdrDeleteRestore, Msg.testSucceeded] ∧
        (testDeleteRestoreFile p w).files
          = fun q => if q = backup then none
              else if q = p then some { ent with owner := o }
              else w.files q) := by
  unfold testDeleteRestoreFile
  simp only []
  generalize hw0 : emit Msg.hdrDeleteRestore (enter Fn.testDeleteRestoreFile p w) = w0
  have t0 : w0.trace = w.trace ++ [Event.enter Fn.testDeleteRestoreFile p,
      Event.out Msg.hdrDeleteRestore] := by simp [← hw0]
  have f0 : w0.files = w.files := by simp [← hw0]
  have u0 : w0.fault = w.fault := by simp [← hw0]
  have c0 : copyOwner backup w0 = copyOwner backup w := by simp [← hw0]
  rcases CopyFileW_cases p backup false w0 with ⟨e, b1, t1, l1, h1, f1⟩ | ⟨ent, b1, t1, l1, h1, -, f1⟩
  · refine Or.inl ⟨e, ?_, by simp [b1, t1, l1, t0], by simp [b1, t1, l1, t0], by simp [b1, f1, f0]⟩
    simpa [u0, f0] using h1
  refine Or.inr ?_
  rw [f0] at h1
  rw [f0, c0] at f1
  generalize CopyFileW p backup false w0 = r1 at *
  rcases DeleteFile_cases p r1.2 with ⟨e, b2, t2, l2, f2⟩ | ⟨b2, t2, l2, -, f2⟩
  · exact Or.inl ⟨e, ent, h1, by simp [b1, b2, t1, t2, l2, t0], by simp [b1, b2, t1, t2, l2, t0],
      by simp [b1, b2, f2, f1]⟩
  refine Or.inr ?_
  rw [f1] at f2
  generalize DeleteFile p r1.2 = r2 at *
  rcases CopyFileW_cases backup p false r2.2 with ⟨e, b3, t3, l3, -, f3⟩ | ⟨ent3, b3, t3, l3, h3, -, f3⟩
  · refine Or.inl ⟨e, ent, h1, by simp [b1, b2, b3, t1, t2, t3, l3, t0],
      by simp [b1, b2, b3, t1, t2, t3, l3, t0], ?_⟩
    simp [b1, b2, b3, f3, f2]
  refine Or.inr ?_
  have hpb : p ≠ backup := by
    intro h
    simp [f2, h] at h3
  have he3 : ent3 = { ent with owner := copyOwner backup w } := by
    have : backup ≠ p := fun h => hpb h.symm
    simp [f2, this] at h3
    exact h3.symm
  generalize copyOwner p r2.2 = o at *
  rw [f2, he3] at f3
  generalize CopyFileW backup p false r2.2 = r3 at *
  rcases DeleteFile_cases backup r3.2 with ⟨e, b4, t4, l4, f4⟩ | ⟨b4, t4, l4, -, f4⟩
  · refine Or.inl ⟨e, ent, o, h1, hpb, by simp [b1, b2, b3, b4, t1, t2, t3, t4, l4, t0],
      by simp [b1, b2, b3, b4, t1, t2, t3, t4, l4, t0], ?_⟩
    simp only [b1, b2, b3, b4, Bool.not_true, Bool.not_false, Bool.false_eq_true, if_false,
      if_true, emit_files, printErrorMessage_files, f4, f3]
    funext q
    by_cases hq : q = p <;> simp [hq]
  · refine Or.inr ⟨ent, o, h1, hpb, by simp [b1, b2, b3, b4, t1, t2, t3, t4, t0],
      by simp [b1, b2, b3, b4, t1, t2, t3, t4, t0], ?_⟩
    simp only [b1, b2, b3, b4, Bool.not_true, Bool.not_false, Bool.false_eq_true, if_false,
      if_true, emit_files, printErrorMessage_files, f4, f3]
    funext q
    by_cases hq : q = backup
    · simp [hq]
    · by_cases hq2 : q = p <;> simp [hq, hq2]

/-! ## The log does not steer the run -/

@[simp] theorem relog_files (t : List Event) (w : World) : (relog t w).files = w.files := rfl

@[simp] theorem relog_trace (t : List Event) (w : World) :
    (relog t w).trace = t ++ w.trace := rfl

theorem emit_relog (m : Msg) (t : List Event) (w : World) :
    emit m (relog t w) = relog t (emit m w) := by
  simp [relog, emit]

theorem enter_relog (f : Fn) (p : String) (t : List Event) (w : World) :
    enter f p (relog t w) = relog t (enter f p w) := by
  simp [relog, enter]

theorem printErrorMessage_relog (t : List Event) (w : World) :
    printErrorMessage (relog t w) = relog t (printErrorMessage w) := by
  simp [relog, printErrorMessage, emit]

theorem CopyFileW_relog (src dst : String) (b : Bool) (t : List Event) (w : World) :
    CopyFileW src dst b (relog t w)
      = ((CopyFileW src dst b w).1, relog t (CopyFileW src dst b w).2) := by
  unfold CopyFileW copyFileReply
  cases hf : w.faults w.calls <;> cases hs : w.files src <;>
    cases hb : (b && (w.files dst).isSome) <;>
    simp [relog, World.fault, World.sys, World.store, copyOwner, hf, hs, hb]

theorem DeleteFile_relog (p : String) (t : List Event) (w : World) :
    DeleteFile p (relog t w) = ((DeleteFile p w).1, relog t (DeleteFile p w).2) := by
  unfold DeleteFile deleteFileReply
  cases hf : w.faults w.calls <;> cases hs : w.files p <;>
    simp [relog, World.fault, World.sys, World.store, hf, hs]

theorem testDeleteRestoreFile_steps (p : String) (w : World) :
    testDeleteRestoreFile p w
      = deleteRestoreSteps p (emit Msg.hdrDeleteRestore (enter Fn.testDeleteRestoreFile p w)) :=
  rfl

theorem testDeleteRestoreFolder_steps (p : String) (w : World) :
    testDeleteRestoreFolder p w
      = deleteRestoreSteps p (emit Msg.hdrDeleteRestore (enter Fn.testDeleteRestoreFolder p w)) :=
  rfl

theorem deleteRestoreSteps_relog (p : String) (t : List Event) (w : World) :
    deleteRestoreSteps p (relog t w) = relog t (deleteRestoreSteps p w) := by
  unfold deleteRestoreSteps
  simp only [CopyFileW_relog, DeleteFile_relog, printErrorMessage_relog, emit_relog]
  split_ifs <;> rfl

/-- A delete/restore probe entered as `f`: its log is the old log, the entry,
the header and what the four steps log on the machine with an empty log. -/
theorem deleteRestore_entered (f : Fn) (p : String) (w : World) :
    deleteRestoreSteps p (emit Msg.hdrDeleteRestore (enter f p w))
      = relog (w.trace ++ [Event.enter f p, Event.out Msg.hdrDeleteRestore])
          (deleteRestoreSteps p (unlogged w)) := by
  rw [← deleteRestoreSteps_relog]
  congr 1
  simp [relog, unlogged, emit, enter]

theorem outs_append (a b : List Event) : outs (a ++ b) = outs a ++ outs b := by
  induction a with
  | nil => rfl
  | cons e es ih => cases e <;> simp [outs, ih]

theorem syscalls_append (a b : List Event) : syscalls (a ++ b) = syscalls a ++ syscalls b := by
  induction a with
  | nil => rfl
  | cons e es ih => cases e <;> simp [syscalls, ih]

/-- C10. Strict four-step abort: every run of `testDeleteRestoreFile` makes the
calls of the steps up to and including the first one that fails and no other,
writes the header, the error code and message and the line of that step, and
never "Test succeeded"; when all four steps succeed it makes the four calls and
writes the header and "Test succeeded".  `testDeleteRestoreFolder` makes the
same calls with the same results, writes the same lines and leaves the same
entries on every input. -/
theorem deleteRestore_strict_abort (p : String) (w : World) :
    ((∃ e, syscalls (newEvents w (testDeleteRestoreFile p w))
          = [(Call.CopyFileW p backup false, Reply.failed e)] ∧
        outs (newEvents w (testDeleteRestoreFile p w))
          = [Msg.hdrDeleteRestore, Msg.lastErrorCode e, Msg.systemMessage e,
             Msg.errorBackingUp]) ∨
     (∃ e, syscalls (newEvents w (testDeleteRestoreFile p w))
          = [(Call.CopyFileW p backup false, Reply.ok 1), (Call.DeleteFile p, Reply.failed e)] ∧
        outs (newEvents w (testDeleteRestoreFile p w))
          = [Msg.hdrDeleteRestore, Msg.lastErrorCode e, Msg.systemMessage e,
             Msg.errorDeletingOriginal]) ∨
     (∃ e, syscalls (newEvents w (testDeleteRestoreFile p w))
          = [(Call.CopyFileW p backup false, Reply.ok 1), (Call.DeleteFile p, Reply.ok 1),
             (Call.CopyFileW backup p false, Reply.failed e)] ∧
        outs (newEvents w (testDeleteRestoreFile p w))
          = [Msg.hdrDeleteRestore, Msg.lastErrorCode e, Msg.systemMessage e,
             Msg.errorRestoring]) ∨
     (∃ e, syscalls (newEvents w (testDeleteRestoreFile p w))
          = [(Call.CopyFileW p backup false, Reply.ok 1), (Call.DeleteFile p, Reply.ok 1),
             (Call.CopyFileW backup p false, Reply.ok 1),
             (Call.DeleteFile backup, Reply.failed e)] ∧
        outs (newEvents w (testDeleteRestoreFile p w))
          = [Msg.hdrDeleteRestore, Msg.lastErrorCode e, Msg.systemMessage e,
             Msg.errorDeletingBackup]) ∨
     (syscalls (newEvents w (testDeleteRestoreFile p w))
          = [(Call.CopyFileW p backup false, Reply.ok 1), (Call.DeleteFile p, Reply.ok 1),
             (Call.CopyFileW backup p false, Reply.ok 1),
             (Call.DeleteFile backup, Reply.ok 1)] ∧
        outs (newEvents w (testDeleteRestoreFile p w))
          = [Msg.hdrDeleteRestore, Msg.testSucceeded])) ∧
    syscalls (newEvents w (testDeleteRestoreFolder p w))
      = syscalls (newEvents w (testDeleteRestoreFile p w)) ∧
    outs (newEvents w (testDeleteRestoreFolder p w))
      = outs (newEvents w (testDeleteRestoreFile p w)) ∧
    (testDeleteRestoreFolder p w).files = (testDeleteRestoreFile p w).files := by
  refine ⟨?_, ?_⟩
  · rcases testDeleteRestoreFile_run p w with ⟨e, -, h1, h2, -⟩ | ⟨e, _, -, h1, h2, -⟩ |
      ⟨e, _, -, h1, h2, -⟩ | ⟨e, _, _, -, -, h1, h2, -⟩ | ⟨_, _, -, -, h1, h2, -⟩
    · exact Or.inl ⟨e, h1, h2⟩
    · exact Or.inr (Or.inl ⟨e, h1, h2⟩)
    · exact Or.inr (Or.inr (Or.inl ⟨e, h1, h2⟩))
    · exact Or.inr (Or.inr (Or.inr (Or.inl ⟨e, h1, h2⟩)))
    · exact Or.inr (Or.inr (Or.inr (Or.inr ⟨h1, h2⟩)))
  · rw [testDeleteRestoreFolder_steps, testDeleteRestoreFile_steps, deleteRestore_entered,
      deleteRestore_entered]
    simp [newEvents, List.append_assoc, syscalls_append, outs_append]

/-- C2. Existence round-trip: when `testDeleteRestoreFile p` writes "Test
succeeded" for a path `p` other than the backup location that held an entry,
`p` holds an entry with the same content afterwards, nothing is left at the
backup location and every other entry is as before. -/
theorem existence_round_trip (p : String) (w : World) (ent : Entry)
    (hp : p ≠ backup) (hent : w.files p = some ent)
    (hs : Msg.testSucceeded ∈ outs (newEvents w (testDeleteRestoreFile p w))) :
    (∃ ent1, (testDeleteRestoreFile p w).files p = some ent1 ∧ ent1.content = ent.content) ∧
    (testDeleteRestoreFile p w).files backup = none ∧
    ∀ q, q ≠ p → q ≠ backup → (testDeleteRestoreFile p w).files q = w.files q := by
  rcases testDeleteRestoreFile_run p w with ⟨e, -, -, h2, -⟩ | ⟨e, _, -, -, h2, -⟩ |
    ⟨e, _, -, -, h2, -⟩ | ⟨e, _, _, -, -, -, h2, -⟩ | ⟨ent2, o, h0, -, -, -, hf⟩
  · simp [h2] at hs
  · simp [h2] at hs
  · simp [h2] at hs
  · simp [h2] at hs
  · rw [hent] at h0
    cases h0
    refine ⟨⟨{ ent with owner := o }, by simp [hf, hp], rfl⟩, by simp [hf], ?_⟩
    intro q hq1 hq2
    simp [hf, hq1, hq2]

/-- C2, witness: the file `f` of `demo`, no failure. -/
theorem existence_round_trip_witness :
    (∃ ent1, (testDeleteRestoreFile "f" (demo fun _ => none)).files "f" = some ent1 ∧
        ent1.content = "hello") ∧
    (testDeleteRestoreFile "f" (demo fun _ => none)).files backup = none ∧
    ∀ q, q ≠ "f" → q ≠ backup →
      (testDeleteRestoreFile "f" (demo fun _ => none)).files q = (demo fun _ => none).files q :=
  existence_round_trip "f" (demo fun _ => none) ⟨"hello", 0x20, some 7⟩
    (by decide) (by decide) (by decide)

/-- C4. Failure isolation on delete: when the backup copy succeeded and the
deletion of `p` failed, those are the only two calls, the delete failure is
reported with the error code and "Test succeeded" is not, the entry at `p` is
as before and the backup location holds a copy of its content. -/
theorem delete_failure_isolated (p : String) (w : World) (code : Nat)
    (h1 : (syscalls (newEvents w (testDeleteRestoreFile p w)))[0]?
      = some (Call.CopyFileW p backup false, Reply.ok 1))
    (h2 : (syscalls (newEvents w (testDeleteRestoreFile p w)))[1]?
      = some (Call.DeleteFile p, Reply.failed code)) :
    syscalls (newEvents w (testDeleteRestoreFile p w))
      = [(Call.CopyFileW p backup false, Reply.ok 1), (Call.DeleteFile p, Reply.failed code)] ∧
    outs (newEvents w (testDeleteRestoreFile p w))
      = [Msg.hdrDeleteRestore, Msg.lastErrorCode code, Msg.systemMessage code,
         Msg.errorDeletingOriginal] ∧
    ∃ ent, w.files p = some ent ∧
      (testDeleteRestoreFile p w).files p = some ent ∧
      ∃ b, (testDeleteRestoreFile p w).files backup = some b ∧ b.content = ent.content := by
  rcases testDeleteRestoreFile_run p w with ⟨e, -, hc, -, -⟩ | ⟨e, ent, h0, hc, ho, hf⟩ |
    ⟨e, _, -, hc, -, -⟩ | ⟨e, _, _, -, -, hc, -, -⟩ | ⟨_, _, -, -, hc, -, -⟩
  · simp [hc] at h1
  · rw [hc] at h2
    simp at h2
    subst h2
    refine ⟨hc, ho, ent, h0, ?_, ⟨{ ent with owner := copyOwner backup w }, by simp [hf], rfl⟩⟩
    by_cases hpb : p = backup
    · subst hpb
      simp [hf, copyOwner, h0]
    · simp [hf, hpb, h0]
  · simp [hc] at h2
  · simp [hc] at h2
  · simp [hc] at h2

/-- C4, witness: on `demo` the OS refuses the second call (the deletion) with
`ERROR_ACCESS_DENIED`. -/
theorem delete_failure_isolated_witness :
    syscalls (newEvents (demo fun k => if k = 1 then some 5 else none)
        (testDeleteRestoreFile "f" (demo fun k => if k = 1 then some 5 else none)))
      = [(Call.CopyFileW "f" backup false, Reply.ok 1), (Call.DeleteFile "f", Reply.failed 5)] ∧
    outs (newEvents (demo fun k => if k = 1 then some 5 else none)
        (testDeleteRestoreFile "f" (demo fun k => if k = 1 then some 5 else none)))
      = [Msg.hdrDeleteRestore, Msg.lastErrorCode 5, Msg.systemMessage 5,
         Msg.errorDeletingOriginal] ∧
    ∃ ent, (demo fun k => if k = 1 then some 5 else none).files "f" = some ent ∧
      (testDeleteRestoreFile "f" (demo fun k => if k = 1 then some 5 else none)).files "f"
        = some ent ∧
      ∃ b, (testDeleteRestoreFile "f" (demo fun k => if k = 1 then some 5 else none)).files backup
        = some b ∧ b.content = ent.content :=
  delete_failure_isolated "f" (demo fun k => if k = 1 then some 5 else none) 5
    (by decide) (by decide)

/-- C3, counterexample. On `demo` the backup location is occupied (content
"old") when the probe starts on `f` (content "hello").  With no failure the
backup copy succeeds, no backup failure is reported, `f` is deleted and the
entry that was at the backup location is gone at the end; when the OS refuses
the deletion of `f`, the probe stops with "hello" at the backup location. -/
theorem backup_step_overwrites_counterexample :
    (demo fun _ => none).files backup = some ⟨"old", 0x80, some 7⟩ ∧
    syscalls (newEvents (demo fun _ => none) (testDeleteRestoreFile "f" (demo fun _ => none)))
      = [(Call.CopyFileW "f" backup false, Reply.ok 1), (Call.DeleteFile "f", Reply.ok 1),
         (Call.CopyFileW backup "f" false, Reply.ok 1), (Call.DeleteFile backup, Reply.ok 1)] ∧
    Msg.errorBackingUp ∉
      outs (newEvents (demo fun _ => none) (testDeleteRestoreFile "f" (demo fun _ => none))) ∧
    (testDeleteRestoreFile "f" (demo fun _ => none)).files backup = none ∧
    (testDeleteRestoreFile "f" (demo fun k => if k = 1 then some 5 else none)).files backup
      = some ⟨"hello", 0x20, some 7⟩ := by
  decide

/-- C3, amended. The backup step overwrites.  Step 1 is `CopyFileW` from `p` to
the backup location with `bFailIfExists` false.  When it fails (the OS refused
it or `p` holds nothing) it is the only call, the backup failure is reported
and no entry changes.  When `p` holds an entry and the OS does not refuse the
call, step 1 succeeds whatever is at the backup location, no backup failure is
reported, the next call is the deletion of `p`, and at the end the backup
location holds nothing or a copy of the content of `p`. -/
theorem backup_step_overwrites (p : String) (w : World) :
    (∃ r, (syscalls (newEvents w (testDeleteRestoreFile p w)))[0]?
        = some (Call.CopyFileW p backup false, r)) ∧
    (∀ e, (syscalls (newEvents w (testDeleteRestoreFile p w)))[0]?
        = some (Call.CopyFileW p backup false, Reply.failed e) →
      (w.fault = some e ∨ w.files p = none) ∧
      syscalls (newEvents w (testDeleteRestoreFile p w))
        = [(Call.CopyFileW p backup false, Reply.failed e)] ∧
      Msg.errorBackingUp ∈ outs (newEvents w (testDeleteRestoreFile p w)) ∧
      (testDeleteRestoreFile p w).files = w.files) ∧
    (∀ ent, w.files p = some ent → w.fault = none →
      (syscalls (newEvents w (testDeleteRestoreFile p w)))[0]?
        = some (Call.CopyFileW p backup false, Reply.ok 1) ∧
      Msg.errorBackingUp ∉ outs (newEvents w (testDeleteRestoreFile p w)) ∧
      (∃ r, (syscalls (newEvents w (testDeleteRestoreFile p w)))[1]?
        = some (Call.DeleteFile p, r)) ∧
      ((testDeleteRestoreFile p w).files backup = none ∨
        ∃ b, (testDeleteRestoreFile p w).files backup = some b ∧ b.content = ent.content)) := by
  rcases testDeleteRestoreFile_run p w with ⟨e, hw, hc, ho, hf⟩ | ⟨e, ent, h0, hc, ho, hf⟩ |
    ⟨e, ent, h0, hc, ho, hf⟩ | ⟨e, ent, o, h0, hpb, hc, ho, hf⟩ | ⟨ent, o, h0, hpb, hc, ho, hf⟩
  · refine ⟨⟨_, by rw [hc]; rfl⟩, ?_, ?_⟩
    · intro e1 h
      simp [hc] at h
      subst h
      exact ⟨hw, hc, by simp [ho], hf⟩
    · intro ent h1 h2
      rcases hw with hw | hw
      · simp [h2] at hw
      · simp [h1] at hw
  · refine ⟨⟨_, by rw [hc]; rfl⟩, ?_, ?_⟩
    · intro e1 h
      simp [hc] at h
    · intro ent1 h1 _
      rw [h0] at h1
      cases h1
      exact ⟨by simp [hc], by simp [ho], ⟨_, by rw [hc]; rfl⟩, Or.inr ⟨{ ent with owner := copyOwner backup w }, by simp [hf], rfl⟩⟩
  · refine ⟨⟨_, by rw [hc]; rfl⟩, ?_, ?_⟩
    · intro e1 h
      simp [hc] at h
    · intro ent1 h1 _
      rw [h0] at h1
      cases h1
      refine ⟨by simp [hc], by simp [ho], ⟨_, by rw [hc]; rfl⟩, ?_⟩
      by_cases hbp : backup = p
      · exact Or.inl (by simp [hf, hbp])
      · exact Or.inr ⟨{ ent with owner := copyOwner backup w }, by simp [hf, hbp], rfl⟩
  · refine ⟨⟨_, by rw [hc]; rfl⟩, ?_, ?_⟩
    · intro e1 h
      simp [hc] at h
    · intro ent1 h1 _
      rw [h0] at h1
      cases h1
      have hbp : backup ≠ p := fun h => hpb h.symm
      exact ⟨by simp [hc], by simp [ho], ⟨_, by rw [hc]; rfl⟩, Or.inr ⟨{ ent with owner := copyOwner backup w }, by simp [hf, hbp], rfl⟩⟩
  · refine ⟨⟨_, by rw [hc]; rfl⟩, ?_, ?_⟩
    · intro e1 h
      simp [hc] at h
    · intro ent1 h1 _
      exact ⟨by simp [hc], by simp [ho], ⟨_, by rw [hc]; rfl⟩, Or.inl (by simp [hf])⟩

/-- C3, witness: `demo`, whose backup location is occupied, with no failure. -/
theorem backup_step_overwrites_witness :
    (syscalls (newEvents (demo fun _ => none) (testDeleteRestoreFile "f" (demo fun _ => none))))[0]?
      = some (Call.CopyFileW "f" backup false, Reply.ok 1) ∧
    Msg.errorBackingUp ∉
      outs (newEvents (demo fun _ => none) (testDeleteRestoreFile "f" (demo fun _ => none))) ∧
    (∃ r, (syscalls (newEvents (demo fun _ => none)
        (testDeleteRestoreFile "f" (demo fun _ => none))))[1]? = some (Call.DeleteFile "f", r)) ∧
    ((testDeleteRestoreFile "f" (demo fun _ => none)).files backup = none ∨
      ∃ b, (testDeleteRestoreFile "f" (demo fun _ => none)).files backup = some b ∧
        b.content = "hello") :=
  (backup_step_overwrites "f" (demo fun _ => none)).2.2 ⟨"hello", 0x20, some 7⟩
    (by decide) (by decide)

/-! ## The Attribute Toggler -/

/-- C9, the code at the failing inputs.  On `demo` with the final re-read
failing (fifth call) the probe reports "Attribute is not the same as original
after restoring" and no read failure; on `demoZero`, where the final re-read
returns the original attribute set 0, it reports "Failed to get attribute
after restoring original attr" and not "Test succeeded". -/
theorem final_attribute_check_uses_invalid_atom :
    syscalls (newEvents (demo fun k => if k = 4 then some 5 else none)
        (testGetSetFileAttributes "f" (demo fun k => if k = 4 then some 5 else none)))
      = [(Call.GetFileAttributesW "f", Reply.ok 0x20),
         (Call.SetFileAttributesW "f" 0x22, Reply.ok 1),
         (Call.GetFileAttributesW "f", Reply.ok 0x22),
         (Call.SetFileAttributesW "f" 0x20, Reply.ok 1),
         (Call.GetFileAttributesW "f", Reply.failed 5)] ∧
    outs (newEvents (demo fun k => if k = 4 then some 5 else none)
        (testGetSetFileAttributes "f" (demo fun k => if k = 4 then some 5 else none)))
      = [Msg.hdrGetSetFileAttributes, Msg.restoreMismatch] ∧
    syscalls (newEvents demoZero (testGetSetFileAttributes "f" demoZero))
      = [(Call.GetFileAttributesW "f", Reply.ok 0),
         (Call.SetFileAttributesW "f" 2, Reply.ok 1),
         (Call.GetFileAttributesW "f", Reply.ok 2),
         (Call.SetFileAttributesW "f" 0, Reply.ok 1),
         (Call.GetFileAttributesW "f", Reply.ok 0)] ∧
    outs (newEvents demoZero (testGetSetFileAttributes "f" demoZero))
      = [Msg.hdrGetSetFileAttributes, Msg.failedToGetAfterRestore] := by
  decide

/-! ## The Ownership Mutator and the Ownership Resolver -/

/-- C5, the code at the failing input.  On `demo` with both account lookups
failing with `ERROR_NONE_MAPPED` (fourth and fifth call) after the descriptor
fetch and the owner extraction succeeded, `testGetFileSecurity` reports no
failure: it prints the two never-filled buffers and "Test succeeded". -/
theorem name_resolution_failure_unreported :
    syscalls (newEvents (demo fun k => if k = 3 ∨ k = 4 then some 1332 else none)
        (testGetFileSecurity "f" (demo fun k => if k = 3 ∨ k = 4 then some 1332 else none)))
      = [(Call.GetFileSecurityW "f" 0, Reply.failed 122),
         (Call.GetFileSecurityW "f" 20, Reply.ok 1),
         (Call.GetSecurityDescriptorOwner, Reply.ok 1),
         (Call.LookupAccountSidW (some 7) 0 0, Reply.failed 1332),
         (Call.LookupAccountSidW (some 7) 0 0, Reply.failed 1332)] ∧
    outs (newEvents (demo fun k => if k = 3 ∨ k = 4 then some 1332 else none)
        (testGetFileSecurity "f" (demo fun k => if k = 3 ∨ k = 4 then some 1332 else none)))
      = [Msg.hdrGetFileSecurity, Msg.ownerName none, Msg.domainName none,
         Msg.testSucceeded] := by
  decide

end VirtualDrive
